import Mathlib

/-!
Shallow embedding of the whatsapp_ai_booking pipeline
(src/ai_extractor.py, src/booking.py, src/main.py).

Python dictionaries produced by `json.loads` are modelled as association
lists of `JValue`; Python truthiness (`not value`) is `JValue.truthy`.
Network responses are explicit values threaded through the functions;
HTTP side effects (login calls, booking POSTs) are recorded in traces so
that call counts and retry behaviour are provable facts.
-/

namespace WhatsappBooking

/-- Values of a decoded JSON object, as Python sees them. -/
inductive JValue where
  | jnull
  | jstr (s : String)
  | jnum (n : Int)
  | jbool (b : Bool)
  deriving DecidableEq, Repr

/-- Python truthiness of a JSON value (`bool(v)`). -/
def JValue.truthy : JValue → Bool
  | .jnull => false
  | .jstr s => s ≠ ""
  | .jnum n => n ≠ 0
  | .jbool b => b

/-- Python `str(v)` rendering used by f-string interpolation. -/
def JValue.pyStr : JValue → String
  | .jnull => "None"
  | .jstr s => s
  | .jnum n => toString n
  | .jbool b => if b then "True" else "False"

/-- A decoded JSON object: Python dict from string keys to values. -/
def Dict := List (String × JValue)

/-- Python `d.get(k)`: first binding of the key, `None` when absent. -/
def dictGet (d : Dict) (k : String) : Option JValue :=
  (d.find? (fun p => p.1 = k)).map (·.2)

/-- Truthiness of `d.get(k)` (absent key is `None`, hence falsy). -/
def getTruthy (d : Dict) (k : String) : Bool :=
  match dictGet d k with
  | none => false
  | some v => v.truthy

/-- Python `int(v)` as used when building the booking payload:
ints pass through, strings are parsed, `None` raises (modelled as
`none`). -/
def pyInt : JValue → Option Int
  | .jnum n => some n
  | .jstr s => s.toInt?
  | .jbool b => some (if b then 1 else 0)
  | .jnull => none

/-- ASCII whitespace recognised by Python `str.strip()`. -/
def isWsChar (c : Char) : Bool :=
  c = ' ' ∨ c = '\t' ∨ c = '\n' ∨ c = '\r' ∨ c = '\x0b' ∨ c = '\x0c'

/-- Strip whitespace from both ends of a character list. -/
def stripWs (l : List Char) : List Char :=
  ((l.dropWhile isWsChar).reverse.dropWhile isWsChar).reverse

/-- Python `s.strip()` (ASCII whitespace model). -/
def pyStrip (s : String) : String := ⟨stripWs s.data⟩

/-- Python `s.lower()` (ASCII model, matching `Char.toLower`). -/
def pyLower (s : String) : String := ⟨s.data.map Char.toLower⟩

/-- Whether pattern `p` occurs as a contiguous run inside `l`
(Python `p in l` on strings). The empty pattern occurs everywhere. -/
def containsSub : List Char → List Char → Bool
  | [], p => p.isEmpty
  | c :: t, p => p.isPrefixOf (c :: t) || containsSub t p

/-- String-level occurrence test: Python `p in s`. -/
def strContains (s p : String) : Bool := containsSub s.data p.data

/-- ROOM_TYPE_MAP from src/booking.py lines 20-32, in insertion order. -/
def ROOM_TYPE_MAP : List (String × Nat) :=
  [("premium suite", 1),
   ("deluxe room", 2),
   ("deluxe", 2),
   ("executive room", 3),
   ("executive", 3),
   ("family suite", 4),
   ("family", 4),
   ("deluxe sea view room", 5),
   ("sea view", 5),
   ("presidential suite", 6),
   ("presidential", 6)]

/-- Python `ROOM_TYPE_MAP.get(k)`. -/
def roomMapGet (k : String) : Option Nat :=
  (ROOM_TYPE_MAP.find? (fun p => p.1 = k)).map (·.2)

/-- Python `list(ROOM_TYPE_MAP.keys())`. -/
def roomMapKeys : List String := ROOM_TYPE_MAP.map (·.1)

/-- Truthiness of the Python variable `room_type_id` (None and 0 falsy). -/
def optNatTruthy : Option Nat → Bool
  | some n => n ≠ 0
  | none => false

/-- The fuzzy scan of src/booking.py lines 89-92: first entry, in
insertion order, whose key occurs in the input or in which the input
occurs. -/
def fuzzyScan (raw : String) : Option Nat :=
  (ROOM_TYPE_MAP.find?
    (fun p => containsSub raw.data p.1.data || containsSub p.1.data raw.data)).map (·.2)

/-- Unknown-room-type failure: carries the text reported by the
exception message and the list of valid labels it prints. -/
structure RoomErr where
  text : String
  valid : List String
  deriving DecidableEq, Repr

/-- The string interpolated for `details.get('room_type')` in the
error message (f-string renders an absent key as `None`). -/
def roomReportText (d : Dict) : String :=
  ((dictGet d "room_type").getD JValue.jnull).pyStr

/-- Python `details.get("room_type", "")` coerced to the string the
code calls `.lower().strip()` on. -/
def roomRawText (d : Dict) : String :=
  match dictGet d "room_type" with
  | some (.jstr s) => s
  | some v => v.pyStr
  | none => ""

/-- Normalisation applied to the room text: `.lower().strip()`. -/
def normalizeRoom (s : String) : String := pyStrip (pyLower s)

/-- Room-type resolution core, src/booking.py lines 84-98, on the
normalised text `raw`; `report` is the text the exception message would
show. Exact lookup in ROOM_TYPE_MAP first, then the fuzzy substring
scan, else the unknown-room exception. -/
def resolveRoomCore (raw report : String) : Except RoomErr Nat :=
  let r0 := roomMapGet raw
  let r1 := if optNatTruthy r0 then r0 else
    match fuzzyScan raw with
    | some v => some v
    | none => r0
  if optNatTruthy r1 then .ok (r1.getD 0)
  else .error ⟨report, roomMapKeys⟩

/-- Room-type resolution as `create_booking` performs it on the
extracted dict (src/booking.py lines 83-98). -/
def resolveRoom (d : Dict) : Except RoomErr Nat :=
  resolveRoomCore (normalizeRoom (roomRawText d)) (roomReportText d)

/-- An HTTP response: numeric status code plus a decoded body. -/
structure HResp (β : Type) where
  status : Nat
  body : β
  deriving DecidableEq, Repr

/-- Body of the login response: the four token field names the code
recognises, each possibly absent. -/
structure LoginBody where
  token : Option String
  access_token : Option String
  jwt : Option String
  authToken : Option String
  deriving DecidableEq, Repr

/-- Python `a or b` over `data.get(name)` results: an absent field or a
field holding a falsy (empty) string is skipped. -/
def orTruthy (x : Option String) (y : Option String) : Option String :=
  match x with
  | some s => if s ≠ "" then some s else y
  | none => y

/-- The token-extraction chain of src/booking.py lines 61-69:
`data.get("token") or data.get("access_token") or data.get("jwt") or
data.get("authToken")` followed by the `if not token` truthiness check,
so the result is `none` exactly when the chain yields `None` or an
empty string (every alias absent or falsy). -/
def firstTokenOf (b : LoginBody) : Option String :=
  match orTruthy b.token (orTruthy b.access_token (orTruthy b.jwt b.authToken)) with
  | some s => if s = "" then none else some s
  | none => none

/-- Failures raised by `get_auth_token`. -/
inductive AuthErr where
  | loginFailed (status : Nat)
  | noToken
  deriving DecidableEq, Repr

/-- Truthiness of the Python global `_cached_token` (None or "" falsy). -/
def cacheTruthy : Option String → Bool
  | some s => s ≠ ""
  | none => false

/-- One call to `get_auth_token` (src/booking.py lines 38-73). The
cached token is explicit state; `resp` is the login endpoint response
consumed when a login happens. Returns the call result, the new cache,
and the number of login requests issued (0 or 1). -/
def getAuthToken (cache : Option String) (force : Bool) (resp : HResp LoginBody) :
    Except AuthErr String × Option String × Nat :=
  if cacheTruthy cache && !force then (.ok (cache.getD ""), cache, 0)
  else if resp.status ≠ 200 then (.error (.loginFailed resp.status), cache, 1)
  else
    match firstTokenOf resp.body with
    | none => (.error .noToken, cache, 1)
    | some tok => (.ok tok, some tok, 1)

/-- Cache state after a sequence of `get_auth_token` calls, each given
by its `force_refresh` flag and the login response the world would
serve. -/
def authRun (cache : Option String) (calls : List (Bool × HResp LoginBody)) :
    Option String :=
  calls.foldl (fun st c => (getAuthToken st c.1 c.2).2.1) cache

/-- Cache states reachable from the initial empty cache never hold the
empty string (the code only stores a token that passed the truthiness
check). -/
def cacheInv (st : Option String) : Prop :=
  st = none ∨ ∃ t, st = some t ∧ t ≠ ""

/-- Failures raised by `create_booking`. -/
inductive BookErr where
  | auth (e : AuthErr)
  | room (e : RoomErr)
  | badPayload
  | bookingFailed (status : Nat)
  deriving DecidableEq, Repr

/-- The JSON payload POSTed to /bookings (src/booking.py lines 101-110). -/
structure Payload where
  user_name : String
  email : String
  room_type_id : Nat
  check_in_date : String
  check_out_date : String
  adults : Int
  children : Int
  deriving DecidableEq, Repr

/-- Python `details.get(k, "")` rendered as the string placed in the
payload. -/
def strField (d : Dict) (k : String) : String :=
  ((dictGet d k).getD (.jstr "")).pyStr

/-- Payload construction (src/booking.py lines 101-110); `none` models
the ValueError/TypeError `int()` raises on an unparseable value. -/
def payloadOf (d : Dict) (rid : Nat) : Option Payload :=
  match pyInt ((dictGet d "adults").getD (.jnum 1)),
        pyInt ((dictGet d "children").getD (.jnum 0)) with
  | some a, some c =>
      some ⟨strField d "guest_name", strField d "email", rid,
            strField d "check_in", strField d "check_out", a, c⟩
  | _, _ => none

/-- Trace of one `create_booking` call: its outcome, the booking POSTs
issued (bearer token and payload, in order), and the `force_refresh`
flag of each `get_auth_token` call made. -/
structure BookTrace (β : Type) where
  result : Except BookErr β
  posts : List (String × Payload)
  fetches : List Bool
  deriving Repr

/-- Booking submission, src/booking.py lines 76-140. `logins i` is the
response the login endpoint gives to its (i+1)-th call; `post k` is the
response to the (k+1)-th booking POST. Statuses 200 and 201 are the
accepted successes; a 401 triggers one forced token refresh and one
retry; anything else raises. Returns the trace and the final token
cache. -/
def createBooking (d : Dict) (cache : Option String)
    (logins : Nat → HResp LoginBody) (post : Nat → HResp β) :
    BookTrace β × Option String :=
  match getAuthToken cache false (logins 0) with
  | (.error e, c0, _) => (⟨.error (.auth e), [], [false]⟩, c0)
  | (.ok tok, c0, n0) =>
    match resolveRoom d with
    | .error re => (⟨.error (.room re), [], [false]⟩, c0)
    | .ok rid =>
      match payloadOf d rid with
      | none => (⟨.error .badPayload, [], [false]⟩, c0)
      | some p =>
        let r1 := post 0
        if r1.status = 200 ∨ r1.status = 201 then
          (⟨.ok r1.body, [(tok, p)], [false]⟩, c0)
        else if r1.status = 401 then
          match getAuthToken c0 true (logins n0) with
          | (.error e, c1, _) => (⟨.error (.auth e), [(tok, p)], [false, true]⟩, c1)
          | (.ok tok2, c1, _) =>
            let r2 := post 1
            if r2.status = 200 ∨ r2.status = 201 then
              (⟨.ok r2.body, [(tok, p), (tok2, p)], [false, true]⟩, c1)
            else
              (⟨.error (.bookingFailed r2.status), [(tok, p), (tok2, p)], [false, true]⟩, c1)
        else
          (⟨.error (.bookingFailed r1.status), [(tok, p)], [false]⟩, c0)

/-- The characters of the fence marker with language tag, as matched
first by the alternation in `re.sub(r'```json|```', '', raw)`. -/
def fenceJson : List Char := "```json".data

/-- The characters of the bare fence marker. -/
def fence : List Char := "```".data

/-- Left-to-right removal of every occurrence of the two fence markers,
longer alternative first, exactly as `re.sub` scans
(src/ai_extractor.py line 77). -/
def stripFences : List Char → List Char
  | [] => []
  | c :: r =>
    if fenceJson.isPrefixOf (c :: r) then
      match r with
      | _ :: _ :: _ :: _ :: _ :: _ :: r7 => stripFences r7
      | _ => []
    else if fence.isPrefixOf (c :: r) then
      match r with
      | _ :: _ :: r3 => stripFences r3
      | _ => []
    else c :: stripFences r

/-- The span matched by `re.search(r'\{.*\}', raw, re.DOTALL)`: from the
first opening brace to the last closing brace of the whole text (greedy,
newlines included), `none` when no such span exists. -/
def findSpan (l : List Char) : Option (List Char) :=
  match l.findIdx? (fun c => c = '\x7b') with
  | none => none
  | some i =>
    let rest := l.drop i
    match rest.reverse.findIdx? (fun c => c = '\x7d') with
    | none => none
    | some rk => some (rest.take (rest.length - rk))

/-- The cleanup applied to the response text before the JSON search:
`.strip()` on the model text (src/ai_extractor.py line 73), fence
removal (line 77), `.strip()` again (line 77). -/
def cleanResp (text : String) : String :=
  pyStrip ⟨stripFences (pyStrip text).data⟩

/-- Response of the language-understanding service, at the abstraction
level of the spec: unreachable, or a status code plus the response text
returned by the model. -/
inductive UpResp where
  | unreachable
  | ok (status : Nat) (text : String)
  deriving DecidableEq, Repr

/-- Failures raised by `extract_booking_details`. -/
inductive ExtractErr where
  | unreachableErr
  | badStatus (status : Nat)
  | noJson
  | invalidJson
  deriving DecidableEq, Repr

/-- Field extraction, src/ai_extractor.py lines 51-86. `jparse` models
`json.loads` restricted to objects (`none` on syntactically invalid
input). The response text is stripped, fence markers removed, stripped
again, the greedy brace span located and parsed; each failure mode maps
to the corresponding `ExtractErr`. Exactly one upstream call is
consumed per extraction: there is no retry. -/
def extractBooking (jparse : String → Option Dict) (resp : UpResp) :
    Except ExtractErr Dict :=
  match resp with
  | .unreachable => .error .unreachableErr
  | .ok st text =>
    if st ≠ 200 then .error (.badStatus st)
    else
      let raw := cleanResp text
      match findSpan raw.data with
      | none => .error .noJson
      | some span =>
        match jparse ⟨span⟩ with
        | none => .error .invalidJson
        | some d => .ok d

/-- The six required fields of src/main.py lines 112-119, with their
human labels, in source order. -/
def requiredFields : List (String × String) :=
  [("guest_name", "your full name"),
   ("email", "your email address"),
   ("check_in", "check-in date"),
   ("check_out", "check-out date"),
   ("room_type", "room type"),
   ("adults", "number of adults")]

/-- The labels of the required fields whose value is falsy
(src/main.py line 120: `if not details.get(field)`). -/
def missingLabels (d : Dict) : List String :=
  (requiredFields.filter (fun p => !getTruthy d p.1)).map (·.2)

/-- Python `details[k]` rendered into an f-string; validation
guarantees the key is present on the paths that use this. -/
def idxField (d : Dict) (k : String) : String :=
  ((dictGet d k).getD JValue.jnull).pyStr

/-- The reply for an extraction failure (src/main.py lines 103-110);
a fixed string mentioning nothing of the raised error. -/
def extractionFailedReply : String :=
  "Booking Failed\n\nSorry, I could not understand your booking request.\n\n" ++
  "Please try again with this format:\nHi, I\x27d like to book a Deluxe Room. " ++
  "My name is John Silva, email john@gmail.com. " ++
  "Check-in March 10 2026, check-out March 15 2026. 2 adults."

/-- Python `sep.join(items)`. -/
def joinWith (sep : String) : List String → String
  | [] => ""
  | [x] => x
  | x :: y :: t => x ++ sep ++ joinWith sep (y :: t)

/-- The reply enumerating missing fields (src/main.py lines 123-128). -/
def incompleteReply (missing : List String) : String :=
  "Booking Incomplete\n\nI could not find:\n" ++
  joinWith "\n" (missing.map (fun m => "  - " ++ m)) ++
  "\n\nPlease resend with all details. Thank you!"

/-- The confirmation reply (src/main.py lines 133-146), restating the
captured fields. -/
def confirmedReply (d : Dict) : String :=
  "Booking Confirmed!\n\nDenisson\x27s Beach Resort\n---------------------------\n" ++
  "Guest:     " ++ idxField d "guest_name" ++
  "\nRoom:      " ++ idxField d "room_type" ++
  "\nCheck-in:  " ++ idxField d "check_in" ++
  "\nCheck-out: " ++ idxField d "check_out" ++
  "\nAdults:    " ++ idxField d "adults" ++
  "\nChildren:  " ++ ((dictGet d "children").getD (.jnum 0)).pyStr ++
  "\n---------------------------\nConfirmation sent to " ++ idxField d "email" ++
  ".\n\nWe look forward to welcoming you!"

/-- The reply for a submission failure (src/main.py lines 149-155);
depends only on the guest name, never on the raised error. -/
def submissionFailedReply (d : Dict) : String :=
  "Booking Failed\n\nSorry " ++
  (match dictGet d "guest_name" with
   | some v => v.pyStr
   | none => "there") ++
  ", we could not complete your booking.\n\nPlease try again or contact us:\n" ++
  "Phone: +1 (555) 123-4567\nEmail: reservations@denissonsbeach.com"

/-- The orchestrator `process_booking_request` (src/main.py lines
97-155). The extractor outcome and the submitter are passed in as
values: a raised exception is an `Except.error` carrying the exception
payload. The function is total and always returns one of the four
replies. -/
def processBookingRequest (ext : Except ε Dict) (sub : Dict → Except σ β) : String :=
  match ext with
  | .error _ => extractionFailedReply
  | .ok d =>
    let missing := missingLabels d
    if missing.isEmpty then
      match sub d with
      | .ok _ => confirmedReply d
      | .error _ => submissionFailedReply d
    else incompleteReply missing

/-- A fully populated extracted record, matching the end-to-end
scenario of the spec. -/
def dComplete : Dict :=
  [("guest_name", .jstr "John Silva"),
   ("email", .jstr "john@gmail.com"),
   ("check_in", .jstr "2026-03-10"),
   ("check_out", .jstr "2026-03-15"),
   ("room_type", .jstr "Deluxe Room"),
   ("adults", .jnum 2),
   ("children", .jnum 0)]

/-- A fully populated record whose guest name happens to contain the
word "Failed"; every required field is truthy and the room resolves. -/
def dFailedName : Dict :=
  [("guest_name", .jstr "Failed Guy"),
   ("email", .jstr "f@x.io"),
   ("check_in", .jstr "2026-05-01"),
   ("check_out", .jstr "2026-05-02"),
   ("room_type", .jstr "deluxe"),
   ("adults", .jnum 2)]

/-- The payload `create_booking` builds from `dComplete`. -/
def pComplete : Payload :=
  ⟨"John Silva", "john@gmail.com", 2, "2026-03-10", "2026-03-15", 2, 0⟩

/-- A login response carrying a bearer token under the primary field. -/
def goodLoginA : HResp LoginBody := ⟨200, ⟨some "tokA", none, none, none⟩⟩

/-- A second login response with a different token under an alias. -/
def goodLoginB : HResp LoginBody := ⟨200, ⟨none, some "tokB", none, none⟩⟩

/-- A login world: first call gets `goodLoginA`, later calls `goodLoginB`. -/
def loginSeq : Nat → HResp LoginBody :=
  fun i => if i = 0 then goodLoginA else goodLoginB

/-- A concrete stand-in for `json.loads` accepting only the object
text "{}" (used to instantiate the extractor at concrete inputs). -/
def jparseFix : String → Option Dict :=
  fun s => if s = "\x7b\x7d" then some [] else none

/-! Helper lemmas about substring occurrence and the room map. -/

theorem isPrefixOf_append_self (p b : List Char) : p.isPrefixOf (p ++ b) = true := by
  induction p with
  | nil => simp [List.isPrefixOf]
  | cons c t ih => simp [List.isPrefixOf, ih]

theorem isPrefixOf_append_of_isPrefixOf (p l t : List Char)
    (h : p.isPrefixOf l = true) : p.isPrefixOf (l ++ t) = true := by
  induction p generalizing l with
  | nil => simp [List.isPrefixOf]
  | cons x q ih =>
    rcases l with _ | ⟨y, m⟩
    · simp [List.isPrefixOf] at h
    · simp only [List.isPrefixOf, Bool.and_eq_true] at h
      simpa [List.isPrefixOf, h.1] using ih m h.2

theorem containsSub_nil (l : List Char) : containsSub l [] = true := by
  induction l with
  | nil => rfl
  | cons c t ih => simp [containsSub, List.isPrefixOf]

theorem containsSub_of_append_self (a p : List Char) :
    containsSub (a ++ p) p = true := by
  induction a with
  | nil =>
    rcases p with _ | ⟨c, t⟩
    · rfl
    · simp [containsSub, isPrefixOf_append_self (c :: t) []]
  | cons c t ih => simp [containsSub, ih]

theorem containsSub_append_right (l t p : List Char)
    (h : containsSub l p = true) : containsSub (l ++ t) p = true := by
  induction l with
  | nil =>
    have : p = [] := by
      rcases p with _ | _
      · rfl
      · simp [containsSub, List.isEmpty] at h
    subst this
    exact containsSub_nil t
  | cons c r ih =>
    simp only [containsSub, Bool.or_eq_true] at h
    rcases h with h | h
    · have h2 := isPrefixOf_append_of_isPrefixOf p (c :: r) t h
      rw [List.cons_append] at h2
      rw [List.cons_append, containsSub, h2, Bool.true_or]
    · rw [List.cons_append, containsSub, ih h, Bool.or_true]

theorem containsSub_append_left (t l p : List Char)
    (h : containsSub l p = true) : containsSub (t ++ l) p = true := by
  induction t with
  | nil => simpa using h
  | cons c r ih => simp [containsSub, ih]

theorem strContains_append_right (s t p : String)
    (h : strContains s p = true) : strContains (s ++ t) p = true := by
  unfold strContains at h ⊢
  rw [String.data_append]
  exact containsSub_append_right _ _ _ h

theorem strContains_append_left (t s p : String)
    (h : strContains s p = true) : strContains (t ++ s) p = true := by
  unfold strContains at h ⊢
  rw [String.data_append]
  exact containsSub_append_left _ _ _ h

theorem strContains_of_suffix (a p : String) : strContains (a ++ p) p = true := by
  unfold strContains
  rw [String.data_append]
  exact containsSub_of_append_self _ _

theorem strContains_joinWith (sep pre : String) (L : List String) (lab : String)
    (h : lab ∈ L) :
    strContains (joinWith sep (L.map (fun m => pre ++ m))) lab = true := by
  induction L with
  | nil => cases h
  | cons a t ih =>
    rcases List.mem_cons.mp h with rfl | hmem
    · rcases t with _ | ⟨b, t2⟩
      · simpa [joinWith] using strContains_of_suffix pre lab
      · simp only [List.map, joinWith]
        exact strContains_append_right _ _ _
          (strContains_append_right _ _ _ (strContains_of_suffix pre lab))
    · rcases t with _ | ⟨b, t2⟩
      · cases hmem
      · simp only [List.map, joinWith]
        exact strContains_append_left _ _ _ (by simpa using ih hmem)

theorem roomMap_snd_ne_zero : ∀ p ∈ ROOM_TYPE_MAP, p.2 ≠ 0 := by decide

theorem roomMapGet_ne_zero (k : String) (id : Nat)
    (h : roomMapGet k = some id) : id ≠ 0 := by
  unfold roomMapGet at h
  cases hf : ROOM_TYPE_MAP.find? (fun p => p.1 = k) with
  | none => rw [hf] at h; exact Option.noConfusion h
  | some pr =>
    rw [hf] at h
    injection h with h
    rw [← h]
    exact roomMap_snd_ne_zero pr (List.mem_of_find?_eq_some hf)

theorem fuzzyScan_ne_zero (k : String) (id : Nat)
    (h : fuzzyScan k = some id) : id ≠ 0 := by
  unfold fuzzyScan at h
  cases hf : ROOM_TYPE_MAP.find?
      (fun p => containsSub k.data p.1.data || containsSub p.1.data k.data) with
  | none => rw [hf] at h; exact Option.noConfusion h
  | some pr =>
    rw [hf] at h
    injection h with h
    rw [← h]
    exact roomMap_snd_ne_zero pr (List.mem_of_find?_eq_some hf)

theorem resolveRoomCore_exact (raw report : String) (id : Nat)
    (h : roomMapGet raw = some id) : resolveRoomCore raw report = .ok id := by
  have hz : id ≠ 0 := roomMapGet_ne_zero raw id h
  unfold resolveRoomCore
  simp [h, optNatTruthy, hz]

theorem resolveRoomCore_fuzzy (raw report : String) (id : Nat)
    (h0 : roomMapGet raw = none) (h1 : fuzzyScan raw = some id) :
    resolveRoomCore raw report = .ok id := by
  have hz : id ≠ 0 := fuzzyScan_ne_zero raw id h1
  unfold resolveRoomCore
  simp [h0, h1, optNatTruthy, hz]

theorem resolveRoomCore_fail (raw report : String)
    (h0 : roomMapGet raw = none) (h1 : fuzzyScan raw = none) :
    resolveRoomCore raw report = .error ⟨report, roomMapKeys⟩ := by
  unfold resolveRoomCore
  simp [h0, h1, optNatTruthy]

/-- C5: room-type resolution lowercases and trims the input, first
attempts exact lookup in ROOM_TYPE_MAP (whose labels and aliases such
as "deluxe room" and "deluxe" share an id), otherwise takes the first
map entry in insertion order whose key occurs in the input or in which
the input occurs, and otherwise fails with an error carrying the
invalid text and the full list of valid labels. -/
theorem c5_room_resolution (d : Dict) :
    (∀ id, roomMapGet (normalizeRoom (roomRawText d)) = some id →
      resolveRoom d = .ok id) ∧
    (roomMapGet (normalizeRoom (roomRawText d)) = none →
      ∀ id, fuzzyScan (normalizeRoom (roomRawText d)) = some id →
        resolveRoom d = .ok id) ∧
    (roomMapGet (normalizeRoom (roomRawText d)) = none →
      fuzzyScan (normalizeRoom (roomRawText d)) = none →
        resolveRoom d = .error ⟨roomReportText d, roomMapKeys⟩) := by
  refine ⟨fun id h => ?_, fun h0 id h1 => ?_, fun h0 h1 => ?_⟩
  · exact resolveRoomCore_exact _ _ id h
  · exact resolveRoomCore_fuzzy _ _ id h0 h1
  · exact resolveRoomCore_fail _ _ h0 h1

/-- Witness for C5: the exact branch resolves " Deluxe ROOM " to id 2,
the alias "deluxe" also maps to 2, and an unknown text fails listing
all labels. -/
theorem c5_room_resolution_witness :
    resolveRoom [("room_type", .jstr " Deluxe ROOM ")] = .ok 2 :=
  (c5_room_resolution [("room_type", .jstr " Deluxe ROOM ")]).1 2 (by decide)

/-- C10: a room_type that normalises to the empty string is matched by
the fuzzy scan to the first map entry, resolving to id 1 rather than
failing. -/
theorem c10_empty_room_resolves_to_first (d : Dict)
    (h : normalizeRoom (roomRawText d) = "") : resolveRoom d = .ok 1 := by
  unfold resolveRoom
  rw [h]
  exact resolveRoomCore_fuzzy "" _ 1 (by decide) (by decide)

/-- Witness for C10: room_type "   " resolves to id 1 ("premium suite"). -/
theorem c10_empty_room_resolves_to_first_witness :
    resolveRoom [("room_type", .jstr "   ")] = .ok 1 :=
  c10_empty_room_resolves_to_first [("room_type", .jstr "   ")] (by decide)

/-! Validation of required fields (src/main.py lines 112-128). -/

theorem label_mem_missing (d : Dict) (p : String × String)
    (hp : p ∈ requiredFields) (h : getTruthy d p.1 = false) :
    p.2 ∈ missingLabels d := by
  unfold missingLabels
  exact List.mem_map_of_mem _ (List.mem_filter.mpr ⟨hp, by simp [h]⟩)

theorem requiredFields_labels_inj :
    ∀ p ∈ requiredFields, ∀ q ∈ requiredFields, p.2 = q.2 → p.1 = q.1 := by decide

theorem mem_missing_iff (d : Dict) (p : String × String)
    (hp : p ∈ requiredFields) :
    p.2 ∈ missingLabels d ↔ getTruthy d p.1 = false := by
  constructor
  · intro h
    unfold missingLabels at h
    rcases List.mem_map.mp h with ⟨q, hq, hq2⟩
    rcases List.mem_filter.mp hq with ⟨hqmem, hqpred⟩
    have h1 : q.1 = p.1 := requiredFields_labels_inj q hqmem p hp hq2
    rw [← h1]
    simpa using hqpred
  · exact label_mem_missing d p hp

theorem processBookingRequest_incomplete {ε σ β : Type} (d : Dict)
    (h : missingLabels d ≠ []) (sub : Dict → Except σ β) :
    processBookingRequest (ε := ε) (.ok d) sub = incompleteReply (missingLabels d) := by
  have hE : (missingLabels d).isEmpty = false := by
    cases hm : missingLabels d with
    | nil => exact absurd hm h
    | cons a t => rfl
  simp [processBookingRequest, hE]

theorem incompleteReply_names_label (L : List String) (lab : String)
    (h : lab ∈ L) : strContains (incompleteReply L) lab = true := by
  unfold incompleteReply
  exact strContains_append_right _ _ _
    (strContains_append_left _ _ _ (strContains_joinWith "\n" "  - " L lab h))

/-- C4: a record with a missing (falsy, per the data model convention
that absent values are empty-string/zero) required field yields the
Incomplete reply, for every submitter (so submission is never
attempted), and the reply lists the human label of a required field iff
that field is missing — every missing one and none that are present —
each missing label occurring verbatim in the reply text. -/
theorem c4_incomplete_enumerates_missing {ε σ β : Type} (d : Dict)
    (h : missingLabels d ≠ []) (sub : Dict → Except σ β) :
    processBookingRequest (ε := ε) (.ok d) sub = incompleteReply (missingLabels d) ∧
    (∀ p ∈ requiredFields, p.2 ∈ missingLabels d ↔ getTruthy d p.1 = false) ∧
    (∀ p ∈ requiredFields, getTruthy d p.1 = false →
      strContains (processBookingRequest (ε := ε) (.ok d) sub) p.2 = true) := by
  refine ⟨processBookingRequest_incomplete d h sub, fun p hp => mem_missing_iff d p hp,
    fun p hp hfalse => ?_⟩
  rw [processBookingRequest_incomplete d h sub]
  exact incompleteReply_names_label _ _ (label_mem_missing d p hp hfalse)

/-- Witness for C4: a record with only the guest name produces the
Incomplete reply listing the five other labels and not the name label. -/
theorem c4_incomplete_enumerates_missing_witness :
    processBookingRequest (ε := String) (σ := String) (β := Nat)
      (.ok [("guest_name", .jstr "John")]) (fun _ => .ok 0) =
      incompleteReply ["your email address", "check-in date", "check-out date",
        "room type", "number of adults"] ∧
    ("your full name" ∈
      missingLabels [("guest_name", .jstr "John")] ↔
        getTruthy [("guest_name", .jstr "John")] "guest_name" = false) := by
  have h := c4_incomplete_enumerates_missing (ε := String) (σ := String) (β := Nat)
    [("guest_name", .jstr "John")] (by decide) (fun _ => .ok 0)
  exact ⟨h.1.trans rfl, h.2.1 ("guest_name", "your full name") (by decide)⟩

/-- C9: an adults value of 0 (or an empty string, or any falsy value)
is treated as a missing field by the truthiness test of src/main.py
line 120: the pipeline replies Incomplete and the reply names "number
of adults". -/
theorem c9_zero_adults_counted_missing {ε σ β : Type} (d : Dict)
    (sub : Dict → Except σ β)
    (h : dictGet d "adults" = some (.jnum 0) ∨ dictGet d "adults" = some (.jstr "")) :
    "number of adults" ∈ missingLabels d ∧
    processBookingRequest (ε := ε) (.ok d) sub = incompleteReply (missingLabels d) ∧
    strContains (processBookingRequest (ε := ε) (.ok d) sub) "number of adults" = true := by
  have hT : getTruthy d "adults" = false := by
    rcases h with h | h <;> simp [getTruthy, h, JValue.truthy]
  have hmem : "number of adults" ∈ missingLabels d :=
    label_mem_missing d ("adults", "number of adults") (by decide) hT
  have hne : missingLabels d ≠ [] := List.ne_nil_of_mem hmem
  refine ⟨hmem, processBookingRequest_incomplete d hne sub, ?_⟩
  rw [processBookingRequest_incomplete d hne sub]
  exact incompleteReply_names_label _ _ hmem

/-- Witness for C9: an otherwise-complete record with adults = 0 ends
Incomplete naming exactly the adult count. -/
theorem c9_zero_adults_counted_missing_witness :
    "number of adults" ∈ missingLabels
      [("guest_name", .jstr "Ana"), ("email", .jstr "ana@x.io"),
       ("check_in", .jstr "2026-04-01"), ("check_out", .jstr "2026-04-03"),
       ("room_type", .jstr "deluxe"), ("adults", .jnum 0)] ∧
    processBookingRequest (ε := String) (σ := String) (β := Nat)
      (.ok [("guest_name", .jstr "Ana"), ("email", .jstr "ana@x.io"),
       ("check_in", .jstr "2026-04-01"), ("check_out", .jstr "2026-04-03"),
       ("room_type", .jstr "deluxe"), ("adults", .jnum 0)]) (fun _ => .ok 0) =
      incompleteReply ["number of adults"] := by
  have h := c9_zero_adults_counted_missing (ε := String) (σ := String) (β := Nat)
    [("guest_name", .jstr "Ana"), ("email", .jstr "ana@x.io"),
     ("check_in", .jstr "2026-04-01"), ("check_out", .jstr "2026-04-03"),
     ("room_type", .jstr "deluxe"), ("adults", .jnum 0)] (fun _ => .ok 0)
    (Or.inl rfl)
  exact ⟨h.1, h.2.1.trans rfl⟩

/-! Confirmation path (src/main.py lines 130-146) and orchestrator
totality. -/

theorem missingLabels_eq_nil {d : Dict}
    (hfields : ∀ p ∈ requiredFields, getTruthy d p.1 = true) :
    missingLabels d = [] := by
  unfold missingLabels
  rw [List.filter_eq_nil_iff.mpr (fun a ha => by simp [hfields a ha])]
  rfl

/-- C3 counterexample: a record whose guest name contains the word
"Failed" meets every premise of the claim (all six fields populated,
room resolves, submission succeeds), yet the Confirmed reply contains
"Failed", because field values are interpolated verbatim. -/
theorem c3_counterexample_failed_wording :
    (∀ p ∈ requiredFields, getTruthy dFailedName p.1 = true) ∧
    resolveRoom dFailedName = .ok 2 ∧
    processBookingRequest (ε := String) (σ := String) (β := Nat)
      (.ok dFailedName) (fun _ => .ok 0) = confirmedReply dFailedName ∧
    strContains (processBookingRequest (ε := String) (σ := String) (β := Nat)
      (.ok dFailedName) (fun _ => .ok 0)) "Failed" = true := by
  refine ⟨by decide, rfl, rfl, by decide⟩

/-- C3 (amended): for every record with all six required fields truthy
and a successful submission, the pipeline replies with the fixed
confirmation template `confirmedReply d`, which contains the literal
"Booking Confirmed!" and restates every captured field value (name,
room, both dates, adult and child counts, email) verbatim. The "no
Incomplete/Failed wording" guarantee holds for the fixed template text
only: interpolated field values appear verbatim, so a field value
containing such wording appears in the reply. -/
theorem c3_confirmed_restates_fields {ε σ β : Type} (d : Dict)
    (sub : Dict → Except σ β) (r : β)
    (hfields : ∀ p ∈ requiredFields, getTruthy d p.1 = true)
    (hsub : sub d = .ok r) :
    processBookingRequest (ε := ε) (.ok d) sub = confirmedReply d ∧
    strContains (confirmedReply d) "Booking Confirmed!" = true ∧
    strContains (confirmedReply d) (idxField d "guest_name") = true ∧
    strContains (confirmedReply d) (idxField d "room_type") = true ∧
    strContains (confirmedReply d) (idxField d "check_in") = true ∧
    strContains (confirmedReply d) (idxField d "check_out") = true ∧
    strContains (confirmedReply d) (idxField d "adults") = true ∧
    strContains (confirmedReply d) (((dictGet d "children").getD (.jnum 0)).pyStr) = true ∧
    strContains (confirmedReply d) (idxField d "email") = true := by
  have hml : missingLabels d = [] := missingLabels_eq_nil hfields
  refine ⟨by simp [processBookingRequest, hml, hsub], ?_, ?_, ?_, ?_, ?_, ?_, ?_, ?_⟩
  all_goals unfold confirmedReply
  · iterate 15 apply strContains_append_right
    decide
  · iterate 13 apply strContains_append_right
    exact strContains_of_suffix _ _
  · iterate 11 apply strContains_append_right
    exact strContains_of_suffix _ _
  · iterate 9 apply strContains_append_right
    exact strContains_of_suffix _ _
  · iterate 7 apply strContains_append_right
    exact strContains_of_suffix _ _
  · iterate 5 apply strContains_append_right
    exact strContains_of_suffix _ _
  · iterate 3 apply strContains_append_right
    exact strContains_of_suffix _ _
  · iterate 1 apply strContains_append_right
    exact strContains_of_suffix _ _

/-- Witness for C3 (amended): the spec scenario record produces the
confirmation reply, which restates the guest name. -/
theorem c3_confirmed_restates_fields_witness :
    processBookingRequest (ε := String) (σ := String) (β := Nat)
      (.ok dComplete) (fun _ => .ok 0) = confirmedReply dComplete ∧
    strContains (confirmedReply dComplete) "John Silva" = true := by
  have h := c3_confirmed_restates_fields (ε := String) (σ := String) (β := Nat)
    dComplete (fun _ => .ok 0) 0 (by decide) rfl
  exact ⟨h.1, h.2.2.1⟩

/-- C8: the orchestrator is a total function into reply strings (an
exception raised by a collaborator is an `Except.error` value and is
consumed here, never re-raised): the reply after an extraction failure
does not depend on the error detail, the reply after a submission
failure does not depend on the error detail, and every run produces
one of the four replies of the state machine. -/
theorem c8_orchestrator_total {ε σ β : Type} :
    (∀ (e e' : ε) (sub sub' : Dict → Except σ β),
      processBookingRequest (.error e) sub = processBookingRequest (.error e') sub') ∧
    (∀ (d : Dict) (sub sub' : Dict → Except σ β) (es es' : σ),
      sub d = .error es → sub' d = .error es' →
      processBookingRequest (ε := ε) (.ok d) sub =
        processBookingRequest (ε := ε) (.ok d) sub') ∧
    (∀ (ext : Except ε Dict) (sub : Dict → Except σ β),
      processBookingRequest ext sub = extractionFailedReply ∨
      (∃ d, ext = .ok d ∧
        processBookingRequest ext sub = incompleteReply (missingLabels d)) ∨
      (∃ d, ext = .ok d ∧ processBookingRequest ext sub = confirmedReply d) ∨
      (∃ d, ext = .ok d ∧ processBookingRequest ext sub = submissionFailedReply d)) := by
  refine ⟨fun e e' sub sub' => rfl, fun d sub sub' es es' h1 h2 => ?_, fun ext sub => ?_⟩
  · cases hE : (missingLabels d).isEmpty <;>
      simp [processBookingRequest, hE, h1, h2]
  · cases ext with
    | error e => exact Or.inl rfl
    | ok d =>
      cases hE : (missingLabels d).isEmpty with
      | false =>
        exact Or.inr (Or.inl ⟨d, rfl, by simp [processBookingRequest, hE]⟩)
      | true =>
        cases hs : sub d with
        | ok r =>
          exact Or.inr (Or.inr (Or.inl ⟨d, rfl, by simp [processBookingRequest, hE, hs]⟩))
        | error es =>
          exact Or.inr (Or.inr (Or.inr ⟨d, rfl, by simp [processBookingRequest, hE, hs]⟩))

/-- Witness for C8: two submitters failing with different error
payloads produce the same reply on a concrete record. -/
theorem c8_orchestrator_total_witness :
    processBookingRequest (ε := String) (β := Nat) (.ok dComplete)
      (fun _ => .error "connection reset") =
    processBookingRequest (ε := String) (β := Nat) (.ok dComplete)
      (fun _ => .error "HTTP 500") :=
  (c8_orchestrator_total (ε := String) (σ := String) (β := Nat)).2.1
    dComplete _ _ "connection reset" "HTTP 500" rfl rfl

/-! Auth token cache (src/booking.py lines 38-73). -/

theorem firstTokenOf_ne_empty (b : LoginBody) (t : String)
    (h : firstTokenOf b = some t) : t ≠ "" := by
  unfold firstTokenOf at h
  rcases hc : orTruthy b.token (orTruthy b.access_token (orTruthy b.jwt b.authToken))
    with _ | s
  · rw [hc] at h
    exact Option.noConfusion h
  · rw [hc] at h
    by_cases hs : s = ""
    · simp [hs] at h
    · simp [hs] at h
      rw [← h]
      exact hs

theorem getAuthToken_preserves_inv (st : Option String) (force : Bool)
    (resp : HResp LoginBody) (h : cacheInv st) :
    cacheInv (getAuthToken st force resp).2.1 := by
  unfold getAuthToken
  cases hb : cacheTruthy st && !force
  · by_cases hs : resp.status = 200
    · rcases hf : firstTokenOf resp.body with _ | tok
      · simpa [hs, hf] using h
      · exact Or.inr ⟨tok, by simp [hs, hf], firstTokenOf_ne_empty _ _ hf⟩
    · simpa [hs] using h
  · simpa using h

theorem authRun_inv (calls : List (Bool × HResp LoginBody)) :
    cacheInv (authRun none calls) := by
  suffices h : ∀ st, cacheInv st → cacheInv (authRun st calls) from
    h none (Or.inl rfl)
  induction calls with
  | nil => exact fun st h => h
  | cons c t ih =>
    intro st h
    exact ih _ (getAuthToken_preserves_inv st c.1 c.2 h)

theorem getAuthToken_login_branch (st : Option String) (force : Bool)
    (resp : HResp LoginBody) (h : (cacheTruthy st && !force) = false) :
    (getAuthToken st force resp).2.2 = 1 ∧
    ((resp.status ≠ 200 ∨ firstTokenOf resp.body = none) →
      ∃ e, (getAuthToken st force resp).1 = .error e) := by
  unfold getAuthToken
  rw [h]
  by_cases hs : resp.status = 200
  · rcases hf : firstTokenOf resp.body with _ | tok
    · simp [hs, hf]
    · simp [hs, hf]
  · simp [hs]

theorem getAuthToken_success_caches (st : Option String) (force : Bool)
    (resp : HResp LoginBody) (tok : String)
    (h : (getAuthToken st force resp).1 = .ok tok) :
    (getAuthToken st force resp).2.1 = some tok := by
  unfold getAuthToken at h ⊢
  cases hb : cacheTruthy st && !force
  · rw [hb] at h
    by_cases hs : resp.status = 200
    · rcases hf : firstTokenOf resp.body with _ | tok2
      · simp [hs, hf] at h
      · simp [hs, hf] at h ⊢
        exact h
    · simp [hs] at h
  · rw [hb] at h
    rcases st with _ | s
    · simp [cacheTruthy] at hb
    · simp at h ⊢
      exact h

/-- C6: along any sequence of `get_auth_token` calls from the initial
empty cache, a call with `force_refresh = False` while a token is
cached returns the cached token with no login request; any other call
issues exactly one login request and fails (AuthErr) if the login
status is not 200 or no recognised token field holds a usable value;
and every successful call leaves the cache equal to the returned
token. -/
theorem c6_token_cache_discipline (calls : List (Bool × HResp LoginBody))
    (force : Bool) (resp : HResp LoginBody) :
    (∀ t, authRun none calls = some t → force = false →
      getAuthToken (authRun none calls) force resp = (.ok t, some t, 0)) ∧
    ((force = true ∨ authRun none calls = none) →
      (getAuthToken (authRun none calls) force resp).2.2 = 1 ∧
      ((resp.status ≠ 200 ∨ firstTokenOf resp.body = none) →
        ∃ e, (getAuthToken (authRun none calls) force resp).1 = .error e)) ∧
    (∀ tok, (getAuthToken (authRun none calls) force resp).1 = .ok tok →
      (getAuthToken (authRun none calls) force resp).2.1 = some tok) := by
  refine ⟨fun t hcache hforce => ?_, fun h => ?_, fun tok h =>
    getAuthToken_success_caches _ _ _ tok h⟩
  · have hinv := authRun_inv calls
    rw [hcache] at hinv ⊢
    rcases hinv with h0 | ⟨t2, ht2, hne⟩
    · exact Option.noConfusion h0
    · have heq : t2 = t := by
        injection ht2 with h3
        exact h3.symm
      subst heq
      subst hforce
      unfold getAuthToken
      have hb : (cacheTruthy (some t2) && !false) = true := by
        simp [cacheTruthy, hne]
      rw [hb]
      simp
  · apply getAuthToken_login_branch
    rcases h with h | h
    · simp [h]
    · rw [h]
      simp [cacheTruthy]

theorem c6_token_cache_discipline_witness :
    getAuthToken (authRun none [(false, goodLoginA)]) false goodLoginB =
      (.ok "tokA", some "tokA", 0) ∧
    (getAuthToken (authRun none []) false goodLoginA).2.2 = 1 := by
  constructor
  · exact (c6_token_cache_discipline [(false, goodLoginA)] false goodLoginB).1
      "tokA" (by decide) rfl
  · exact ((c6_token_cache_discipline [] false goodLoginA).2.1 (Or.inr rfl)).1

/-! Booking submitter (src/booking.py lines 76-140). -/

theorem getAuthToken_ok_of_login_ok (st : Option String) (force : Bool)
    (resp : HResp LoginBody) (h200 : resp.status = 200)
    (htok : firstTokenOf resp.body ≠ none) :
    ∃ tok, (getAuthToken st force resp).1 = .ok tok := by
  unfold getAuthToken
  cases hb : cacheTruthy st && !force
  · rcases hf : firstTokenOf resp.body with _ | tok
    · exact absurd hf htok
    · exact ⟨tok, by simp [h200, hf]⟩
  · rcases st with _ | s
    · simp [cacheTruthy] at hb
    · exact ⟨s, by simp⟩

/-- C2 (amended): a first booking POST answered with status 200 or 201
is a success: `create_booking` returns the parsed body after exactly
one POST and one non-forced token fetch. (The code accepts only these
two of the 2xx statuses; see the counterexample for 202.) -/
theorem c2_success_statuses {β : Type} (d : Dict) (cache : Option String)
    (logins : Nat → HResp LoginBody) (post : Nat → HResp β)
    (t0 : String) (rid : Nat) (p : Payload)
    (hauth : (getAuthToken cache false (logins 0)).1 = .ok t0)
    (hroom : resolveRoom d = .ok rid) (hpay : payloadOf d rid = some p)
    (hstatus : (post 0).status = 200 ∨ (post 0).status = 201) :
    (createBooking d cache logins post).1 = ⟨.ok (post 0).body, [(t0, p)], [false]⟩ := by
  rcases hga : getAuthToken cache false (logins 0) with ⟨r0, c0, n0⟩
  rw [hga] at hauth
  have : r0 = .ok t0 := hauth
  subst this
  unfold createBooking
  rw [hga, hroom]
  simp [hpay, hstatus]

/-- C2 counterexample: a 202 response — a 2xx status — is not treated
as success: the submission raises instead of returning the parsed
result. -/
theorem c2_counterexample_202_fails :
    (200 ≤ 202 ∧ 202 < 300) ∧
    (createBooking dComplete (some "tok") loginSeq
      (fun _ => (⟨202, 0⟩ : HResp Nat))).1.result = .error (.bookingFailed 202) :=
  ⟨by decide, rfl⟩

/-- Witness for C2 (amended): with a cached token and a 201 response,
the booking returns the parsed body after one POST. -/
theorem c2_success_statuses_witness :
    (createBooking dComplete (some "tok") loginSeq
      (fun _ => (⟨201, 42⟩ : HResp Nat))).1 =
      ⟨.ok 42, [("tok", pComplete)], [false]⟩ :=
  c2_success_statuses dComplete (some "tok") loginSeq _ "tok" 2 pComplete
    rfl rfl rfl (Or.inr rfl)

/-- C1: with a healthy login endpoint and a resolvable payload, the
submitter fetches the current token without forced refresh and POSTs
once; a 200/201 answer is returned as success; a 401 answer triggers
exactly one forced token refresh and exactly one retry carrying the
same payload (success returned, anything else a terminal BookingError
— no third POST); any other status fails immediately with no refresh
and no retry. -/
theorem c1_submit_retry_policy {β : Type} (d : Dict) (cache : Option String)
    (logins : Nat → HResp LoginBody) (post : Nat → HResp β)
    (rid : Nat) (p : Payload)
    (hlog : ∀ i, (logins i).status = 200 ∧ firstTokenOf (logins i).body ≠ none)
    (hroom : resolveRoom d = .ok rid) (hpay : payloadOf d rid = some p) :
    ∃ t0 t1,
      (((post 0).status = 200 ∨ (post 0).status = 201) →
        (createBooking d cache logins post).1 =
          ⟨.ok (post 0).body, [(t0, p)], [false]⟩) ∧
      ((post 0).status = 401 →
        (((post 1).status = 200 ∨ (post 1).status = 201) →
          (createBooking d cache logins post).1 =
            ⟨.ok (post 1).body, [(t0, p), (t1, p)], [false, true]⟩) ∧
        (¬((post 1).status = 200 ∨ (post 1).status = 201) →
          (createBooking d cache logins post).1 =
            ⟨.error (.bookingFailed (post 1).status), [(t0, p), (t1, p)],
              [false, true]⟩)) ∧
      (¬((post 0).status = 200 ∨ (post 0).status = 201) → (post 0).status ≠ 401 →
        (createBooking d cache logins post).1 =
          ⟨.error (.bookingFailed (post 0).status), [(t0, p)], [false]⟩) := by
  obtain ⟨t0, h0⟩ :=
    getAuthToken_ok_of_login_ok cache false (logins 0) (hlog 0).1 (hlog 0).2
  rcases hga : getAuthToken cache false (logins 0) with ⟨r0, c0, n0⟩
  rw [hga] at h0
  have : r0 = .ok t0 := h0
  subst this
  obtain ⟨t1, h1⟩ :=
    getAuthToken_ok_of_login_ok c0 true (logins n0) (hlog n0).1 (hlog n0).2
  rcases hga2 : getAuthToken c0 true (logins n0) with ⟨r1, c1, n1⟩
  rw [hga2] at h1
  have : r1 = .ok t1 := h1
  subst this
  refine ⟨t0, t1, fun hs => ?_, fun hs401 => ⟨fun hs2 => ?_, fun hs2 => ?_⟩,
    fun hs hs401 => ?_⟩
  · unfold createBooking
    rw [hga, hroom]
    simp [hpay, hs]
  · unfold createBooking
    rw [hga, hroom]
    simp [hpay, hs401, hga2, hs2]
  · unfold createBooking
    rw [hga, hroom]
    simp [hpay, hs401, hga2, hs2]
  · unfold createBooking
    rw [hga, hroom]
    simp [hpay, hs, hs401]

/-- Witness for C1: a 401 then a 200 yields success with one refresh
and one retry carrying the same payload under both tokens. -/
theorem c1_submit_retry_policy_witness :
    (createBooking dComplete none loginSeq
      (fun k => if k = 0 then (⟨401, 7⟩ : HResp Nat) else ⟨200, 9⟩)).1 =
      ⟨.ok 9, [("tokA", pComplete), ("tokB", pComplete)], [false, true]⟩ := by
  obtain ⟨t0, t1, hA, hB, hC⟩ := c1_submit_retry_policy (β := Nat) dComplete none
    loginSeq (fun k => if k = 0 then ⟨401, 7⟩ else ⟨200, 9⟩) 2 pComplete
    (by
      intro i
      by_cases hi : i = 0 <;>
        simp [hi, loginSeq, goodLoginA, goodLoginB, firstTokenOf, orTruthy])
    rfl rfl
  have h := (hB rfl).1 (Or.inl rfl)
  have hconc : (createBooking dComplete none loginSeq
      (fun k => if k = 0 then (⟨401, 7⟩ : HResp Nat) else ⟨200, 9⟩)).1 =
      ⟨.ok 9, [("tokA", pComplete), ("tokB", pComplete)], [false, true]⟩ := rfl
  exact hconc

/-! Field extractor (src/ai_extractor.py lines 51-86). -/

/-- C7: the extractor consumes exactly one upstream response and fails
with the corresponding ExtractErr exactly when the service is
unreachable, the status is not the success status, the cleaned text
(fences stripped) holds no greedy brace span, or the located span is
not syntactically valid JSON; otherwise it returns the parsed record.
There is no retry: the function takes a single response. -/
theorem c7_extraction_error_conditions (jparse : String → Option Dict) :
    (extractBooking jparse .unreachable = .error .unreachableErr) ∧
    (∀ st text, st ≠ 200 →
      extractBooking jparse (.ok st text) = .error (.badStatus st)) ∧
    (∀ text, findSpan (cleanResp text).data = none →
      extractBooking jparse (.ok 200 text) = .error .noJson) ∧
    (∀ text span, findSpan (cleanResp text).data = some span →
      jparse ⟨span⟩ = none →
      extractBooking jparse (.ok 200 text) = .error .invalidJson) ∧
    (∀ text span rec, findSpan (cleanResp text).data = some span →
      jparse ⟨span⟩ = some rec →
      extractBooking jparse (.ok 200 text) = .ok rec) ∧
    (∀ resp, (∃ e, extractBooking jparse resp = .error e) ↔
      (resp = .unreachable ∨
       ∃ st text, resp = .ok st text ∧
         (st ≠ 200 ∨ findSpan (cleanResp text).data = none ∨
          ∃ span, findSpan (cleanResp text).data = some span ∧
            jparse ⟨span⟩ = none))) := by
  refine ⟨rfl, fun st text h => by simp [extractBooking, h],
    fun text h => by simp [extractBooking, h],
    fun text span h1 h2 => by simp [extractBooking, h1, h2],
    fun text span rec h1 h2 => by simp [extractBooking, h1, h2],
    fun resp => ?_⟩
  cases resp with
  | unreachable => simp [extractBooking]
  | ok st text =>
    by_cases hs : st = 200
    · subst hs
      rcases hf : findSpan (cleanResp text).data with _ | span
      · simp only [extractBooking, hf]
        constructor
        · exact fun _ => Or.inr ⟨200, text, rfl, Or.inr (Or.inl hf)⟩
        · exact fun _ => ⟨.noJson, by simp [hf]⟩
      · rcases hp : jparse ⟨span⟩ with _ | rec
        · constructor
          · exact fun _ => Or.inr ⟨200, text, rfl, Or.inr (Or.inr ⟨span, hf, hp⟩)⟩
          · exact fun _ => ⟨.invalidJson, by simp [extractBooking, hf, hp]⟩
        · simp [extractBooking, hf, hp]
    · constructor
      · exact fun _ => Or.inr ⟨st, text, rfl, Or.inl hs⟩
      · exact fun _ => ⟨.badStatus st, by simp [extractBooking, hs]⟩

/-- Witness for C7: a fenced object parses; a bad status, a span-free
text, and an unparseable span each fail with the matching error. -/
theorem c7_extraction_error_conditions_witness :
    extractBooking jparseFix (.ok 200 " ```json\n\x7b\x7d\n``` ") = .ok [] ∧
    extractBooking jparseFix (.ok 500 "x") = .error (.badStatus 500) ∧
    extractBooking jparseFix (.ok 200 "no json here") = .error .noJson ∧
    extractBooking jparseFix (.ok 200 "\x7bbad\x7d") = .error .invalidJson := by
  have h := c7_extraction_error_conditions jparseFix
  exact ⟨h.2.2.2.2.1 " ```json\n\x7b\x7d\n``` " "\x7b\x7d".data [] (by decide) rfl,
    h.2.1 500 "x" (by decide),
    h.2.2.1 "no json here" (by decide),
    h.2.2.2.1 "\x7bbad\x7d" "\x7bbad\x7d".data (by decide) rfl⟩

end WhatsappBooking
